import Mathlib

/-!
Shallow embedding of wayfire's `src/core/seat/seat.cpp` (input/seat
management: drag-and-drop state machine, drag icon positioning and damage,
seat request bridging, input device enable/disable and configuration).

Pure functions model the C++ handlers; side effects (signal emission,
provider/libinput configuration calls, data-source destruction) are made
explicit as returned action lists, and the single mutable drag slot is
threaded as explicit state.
-/

namespace Seat

/-- Payload of a compositor signal: the drag signals pass `nullptr`; switch
toggle signals pass a `wf::switch_signal` with a device reference and an
on/off state. -/
inductive SignalPayload where
  | null : SignalPayload
  | switchData (device : Nat) (state : Bool) : SignalPayload
deriving DecidableEq, Repr

/-- One `core->emit_signal(name, payload)` call: signal name plus payload. -/
abbrev Signal := String × SignalPayload

/-- Model of a `wf_drag_icon` wrapper object; it stores the wlroots drag
icon it was constructed around (`wf_drag_icon::icon`), identified here by a
numeric handle. -/
structure wf_drag_icon_m where
  icon : Nat
deriving DecidableEq, Repr

/-- The part of `input_manager` state the drag handlers touch: the single
global drag slot `core->input->drag_icon` (a `unique_ptr`, i.e. empty or
holding one wrapper). -/
structure InputManagerState where
  drag_icon : Option wf_drag_icon_m
deriving DecidableEq, Repr

/-- Embeds `handle_start_drag_cb` (seat.cpp lines 114-119): on the seat's
`start_drag` event, overwrite the global drag slot with a newly constructed
`wf_drag_icon` wrapper around `d->icon`, then emit `"drag-started"` with a
null payload. -/
def handle_start_drag_cb (_st : InputManagerState) (icon : Nat) :
    InputManagerState × List Signal :=
  ({ drag_icon := some { icon := icon } }, [("drag-started", SignalPayload.null)])

/-- Embeds `handle_drag_icon_destroy` (seat.cpp lines 28-34): on the icon's
destroy notification, clear the global drag slot and emit `"drag-stopped"`
with a null payload, unconditionally. -/
def handle_drag_icon_destroy (_st : InputManagerState) :
    InputManagerState × List Signal :=
  ({ drag_icon := none }, [("drag-stopped", SignalPayload.null)])

/-- Validation interface of the current seat, as consulted by
`handle_request_start_drag_cb`: `wlr_seat_validate_pointer_grab_serial`
yields a boolean; `wlr_seat_validate_touch_grab_serial` yields, when valid,
the specific touch point. -/
structure SeatState where
  validate_pointer_grab_serial : Nat → Bool
  validate_touch_grab_serial : Nat → Option Nat

/-- Observable effects of one `request_start_drag` event. -/
structure RequestStartDragEffects where
  started_pointer_drag : Bool
  started_touch_drag : Option Nat
  source_destroyed : Bool
  logged : Bool
deriving DecidableEq, Repr

/-- Embeds `handle_request_start_drag_cb` (seat.cpp lines 93-112): validate
the request serial against the pointer grab serial and start a pointer drag
on success; otherwise validate against the touch grab serial and start a
touch drag at the returned touch point on success; otherwise log a debug
message and destroy the drag's data source
(`wlr_data_source_destroy(ev->drag->source)`). The handler returns no
error in any branch. -/
def handle_request_start_drag_cb (seat : SeatState) (serial : Nat) :
    RequestStartDragEffects :=
  if seat.validate_pointer_grab_serial serial then
    { started_pointer_drag := true, started_touch_drag := none,
      source_destroyed := false, logged := false }
  else
    match seat.validate_touch_grab_serial serial with
    | some point =>
      { started_pointer_drag := false, started_touch_drag := some point,
        source_destroyed := false, logged := false }
    | none =>
      { started_pointer_drag := false, started_touch_drag := none,
        source_destroyed := true, logged := true }

/-- Composes `handle_request_start_drag_cb` with the `start_drag` grant
event on the drag slot. A started drag is granted by the seat
(`wlr_seat_start_pointer_drag` / `wlr_seat_start_touch_drag`, external to
this file's source slice), which fires `start_drag` and thus
`handle_start_drag_cb`; the rejection branch runs entirely in seat.cpp and
leaves the slot untouched, emits nothing and destroys the source. Returns
the new slot state, the emitted signals and whether the data source was
destroyed. -/
def request_start_drag_step (seat : SeatState) (st : InputManagerState)
    (serial icon : Nat) : InputManagerState × List Signal × Bool :=
  let eff := handle_request_start_drag_cb seat serial
  if eff.started_pointer_drag || eff.started_touch_drag.isSome then
    let r := handle_start_drag_cb st icon
    (r.1, r.2, false)
  else
    (st, [], eff.source_destroyed)

/-- A point in compositor coordinates (`wf_point`). -/
structure wf_point where
  x : Int
  y : Int
deriving DecidableEq, Repr

/-- A rectangle (`wlr_box` / `wf_geometry`): origin plus size. -/
structure Box where
  x : Int
  y : Int
  width : Int
  height : Int
deriving DecidableEq, Repr

/-- Modelled from the spec: the geometry intersection test
`output_geometry & box` (wayfire's `operator&` on `wf_geometry`, defined
outside this source slice). Per the spec, damage goes to "every output
whose layout-space geometry intersects the given global-space box"; two
rectangles intersect when they overlap with positive area. -/
def rectIntersects (a b : Box) : Bool :=
  a.x < b.x + b.width && b.x < a.x + a.width &&
  a.y < b.y + b.height && b.y < a.y + a.height

/-- One output of the Output Set, with its layout-space geometry
(`output->get_layout_geometry()`). -/
structure Output where
  id : Nat
  layout_geometry : Box
deriving DecidableEq, Repr

/-- Embeds `wf_drag_icon::damage` (seat.cpp lines 73-91): a no-op when the
icon is unmapped; otherwise, for each output whose layout geometry
intersects the box, translate the box by subtracting the output geometry's
origin and submit it to that output's renderer. The returned list records,
in output order, each `output->render->damage(...)` submission as the
output id paired with the translated (output-local) geometry box; the
framebuffer representation conversion `damage_box_from_geometry_box` is
outside this source slice and is left at the geometry-box level. -/
def wf_drag_icon_damage (outputs : List Output) (mapped : Bool) (box : Box) :
    List (Nat × Box) :=
  if !mapped then []
  else
    outputs.filterMap fun o =>
      if rectIntersects o.layout_geometry box then
        some (o.id, { box with x := box.x - o.layout_geometry.x,
                               y := box.y - o.layout_geometry.y })
      else
        none

/-- The wlroots drag grab type; seat.cpp only distinguishes
`WLR_DRAG_GRAB_KEYBOARD_TOUCH` from the rest. -/
inductive GrabType where
  | keyboard
  | keyboard_pointer
  | keyboard_touch
deriving DecidableEq, Repr

/-- The state of a `wf_drag_icon` that `get_output_position` reads: the
grab type and touch id of the underlying `icon->drag`, the mapped state,
the icon surface's local offset (`icon->surface->sx/sy`), and the layout
geometry of the output the icon is currently assigned to (if any). -/
structure DragIconState where
  grab_type : GrabType
  touch_id : Int
  mapped : Bool
  surface_sx : Int
  surface_sy : Int
  output : Option Box
deriving DecidableEq, Repr

/-- The live core positions `get_output_position` queries on every call:
`core->get_touch_position(id)` and `core->get_cursor_position()`. -/
structure CoreState where
  touch_position : Int → wf_point
  cursor_position : wf_point

/-- Embeds `wf_drag_icon::get_output_position` (seat.cpp lines 50-71):
start from the current touch position when the grab is
`WLR_DRAG_GRAB_KEYBOARD_TOUCH`, else the current cursor position; when
mapped, add the icon surface's local offset; when assigned to an output,
subtract that output's layout-geometry origin. -/
def get_output_position (core : CoreState) (icon : DragIconState) : wf_point :=
  let pos :=
    if icon.grab_type = GrabType.keyboard_touch then
      core.touch_position icon.touch_id
    else
      core.cursor_position
  let x := pos.x
  let y := pos.y
  let x := if icon.mapped then x + icon.surface_sx else x
  let y := if icon.mapped then y + icon.surface_sy else y
  match icon.output with
  | some og => { x := x - og.x, y := y - og.y }
  | none => { x := x, y := y }

/-- The libinput send-events mode of a device
(`LIBINPUT_CONFIG_SEND_EVENTS_*`). -/
inductive SendEventsMode where
  | enabled
  | disabled
  | disabledOnExternalMouse
deriving DecidableEq, Repr

/-- The state of one wrapped input device, as `input_device_t` sees it: a
non-libinput handle has no libinput device behind it; a libinput handle
carries the live send-events mode queried from the provider. -/
structure InputDeviceState where
  libinput : Option SendEventsMode
deriving DecidableEq, Repr

/-- Embeds `wf::input_device_t::is_enabled` (seat.cpp lines 190-201): a
non-libinput device always reports enabled; a libinput device queries the
provider's send-events mode live and reports enabled exactly when it is
`LIBINPUT_CONFIG_SEND_EVENTS_ENABLED`. -/
def is_enabled (d : InputDeviceState) : Bool :=
  match d.libinput with
  | none => true
  | some mode => mode = SendEventsMode.enabled

/-- Embeds `wf::input_device_t::set_enabled` (seat.cpp lines 172-188):
when the requested state equals the current `is_enabled()` state, return
true immediately; otherwise return false for a non-libinput device, and
for a libinput device set the provider's send-events mode and return true.
The result carries the boolean return value, the device state afterwards,
and the list of provider mode-set calls performed. -/
def set_enabled (d : InputDeviceState) (enabled : Bool) :
    Bool × InputDeviceState × List SendEventsMode :=
  if enabled = is_enabled d then
    (true, d, [])
  else
    match d.libinput with
    | none => (false, d, [])
    | some _ =>
      let mode := if enabled then SendEventsMode.enabled
                  else SendEventsMode.disabled
      (true, { libinput := some mode }, [mode])

/-- wlroots switch type values (`enum wlr_switch_type`):
`WLR_SWITCH_TYPE_LID = 1`, `WLR_SWITCH_TYPE_TABLET_MODE = 2`. The C
enum variable can carry other integer values, so the kind is a `Nat`. -/
def WLR_SWITCH_TYPE_LID : Nat := 1

/-- wlroots `WLR_SWITCH_TYPE_TABLET_MODE`. -/
def WLR_SWITCH_TYPE_TABLET_MODE : Nat := 2

/-- wlroots `WLR_SWITCH_STATE_ON` (switch states: OFF = 0, ON = 1). -/
def WLR_SWITCH_STATE_ON : Nat := 1

/-- Embeds `wf_input_device_internal::handle_switched` (seat.cpp lines
264-282): build a `switch_signal` payload with the device reference and
`state = (ev->switch_state == WLR_SWITCH_STATE_ON)`; pick the event name
by a switch on `ev->switch_type` with cases only for tablet-mode and lid
(the name stays the empty string otherwise); then call
`core->emit_signal(event_name, &data)` unconditionally. Returns the list
of emitted signals (always exactly one). -/
def handle_switched (device : Nat) (switch_type switch_state : Nat) :
    List Signal :=
  let data := SignalPayload.switchData device (switch_state = WLR_SWITCH_STATE_ON)
  let event_name :=
    if switch_type = WLR_SWITCH_TYPE_TABLET_MODE then "tablet-mode"
    else if switch_type = WLR_SWITCH_TYPE_LID then "lid-state"
    else ""
  [(event_name, data)]

/-- Embeds `wf_input_device_internal::config_t` (seat.cpp): the eight
options read by `config_t::load`, kept as the raw option strings. -/
structure config_t where
  mouse_cursor_speed : String
  touchpad_cursor_speed : String
  touchpad_tap_enabled : String
  touchpad_click_method : String
  touchpad_scroll_method : String
  touchpad_dwt_enabled : String
  touchpad_dwmouse_enabled : String
  touchpad_natural_scroll_enabled : String
deriving DecidableEq, Repr

/-- Embeds `wf_input_device_internal::config_t::load` (seat.cpp lines
211-222): select the `"input"` section of the configuration source and
read the eight named options, each with its explicit default used when the
option is absent (`get_option(name, default)`). The source is a function
from section name and option name to the stored value, when present. -/
def config_load (source : String → String → Option String) : config_t :=
  let sec := source "input"
  { mouse_cursor_speed := (sec "mouse_cursor_speed").getD "0"
    touchpad_cursor_speed := (sec "touchpad_cursor_speed").getD "0"
    touchpad_tap_enabled := (sec "tap_to_click").getD "1"
    touchpad_click_method := (sec "click_method").getD "default"
    touchpad_scroll_method := (sec "scroll_method").getD "default"
    touchpad_dwt_enabled := (sec "disable_while_typing").getD "0"
    touchpad_dwmouse_enabled := (sec "disable_touchpad_while_mouse").getD "0"
    touchpad_natural_scroll_enabled := (sec "natural_scroll").getD "0" }

/-- libinput click methods (`LIBINPUT_CONFIG_CLICK_METHOD_*`). -/
inductive ClickMethod where
  | none_
  | button_areas
  | clickfinger
deriving DecidableEq, Repr

/-- libinput scroll methods (`LIBINPUT_CONFIG_SCROLL_*`). -/
inductive ScrollMethod where
  | no_scroll
  | two_fg
  | edge
  | on_button_down
deriving DecidableEq, Repr

/-- One libinput configuration call performed by `update_options`; speed
values are carried as the raw option string handed to
`as_cached_double`. -/
inductive ProviderCall where
  | accel_set_speed (speed : String)
  | tap_set_enabled (enabled : Bool)
  | click_set_method (m : ClickMethod)
  | scroll_set_method (m : ScrollMethod)
  | dwt_set_enabled (enabled : Bool)
  | send_events_set_mode (m : SendEventsMode)
  | natural_scroll_set (enabled : Bool)
deriving DecidableEq, Repr

/-- Embeds the click-method if/else chain of `update_options` (seat.cpp
lines 303-315): `"default"` selects the device's own default click method,
the three literal strings select the corresponding explicit method, and
any other string falls through every branch so no setter is called
(`none`). -/
def click_method_for (s : String) (device_default : ClickMethod) :
    Option ClickMethod :=
  if s = "default" then some device_default
  else if s = "none" then some ClickMethod.none_
  else if s = "button-areas" then some ClickMethod.button_areas
  else if s = "clickfinger" then some ClickMethod.clickfinger
  else none

/-- Embeds the scroll-method if/else chain of `update_options` (seat.cpp
lines 317-332): `"default"` selects the device's own default scroll
method, the four literal strings select the corresponding explicit method,
and any other string falls through every branch so no setter is called. -/
def scroll_method_for (s : String) (device_default : ScrollMethod) :
    Option ScrollMethod :=
  if s = "default" then some device_default
  else if s = "none" then some ScrollMethod.no_scroll
  else if s = "two-finger" then some ScrollMethod.two_fg
  else if s = "edge" then some ScrollMethod.edge
  else if s = "on-button-down" then some ScrollMethod.on_button_down
  else none

/-- Truthiness of an option string under `as_cached_int` (the stored
string parsed as an integer, zero when unparsable), as used by the
`? :` tests in `update_options`. -/
def option_int_truthy (s : String) : Bool :=
  (s.toInt?.getD 0) ≠ 0

/-- Capabilities of the device that `update_options` queries from the
provider: whether the handle is a libinput device, the tap finger count
(positive means the device is configured as a touchpad), whether natural
scroll is supported, and the provider's default click and scroll
methods. -/
structure DeviceCaps where
  is_libinput : Bool
  tap_finger_count : Int
  has_natural_scroll : Int
  default_click_method : ClickMethod
  default_scroll_method : ScrollMethod
deriving DecidableEq, Repr

/-- Embeds `wf_input_device_internal::update_options` (seat.cpp lines
284-352): a non-libinput device gets no configuration; a libinput device
with positive tap finger count is configured as a touchpad (acceleration
speed from `touchpad_cursor_speed`, tap-to-click, click method, scroll
method, disable-while-typing, send-events mode from
`disable_touchpad_while_mouse`, and natural scroll only when supported);
any other libinput device only gets acceleration speed from
`mouse_cursor_speed`. Returns the provider calls in program order. -/
def update_options (config : config_t) (caps : DeviceCaps) :
    List ProviderCall :=
  if !caps.is_libinput then []
  else if caps.tap_finger_count > 0 then
    [ProviderCall.accel_set_speed config.touchpad_cursor_speed,
     ProviderCall.tap_set_enabled (option_int_truthy config.touchpad_tap_enabled)]
    ++ (match click_method_for config.touchpad_click_method
              caps.default_click_method with
        | some m => [ProviderCall.click_set_method m]
        | none => [])
    ++ (match scroll_method_for config.touchpad_scroll_method
              caps.default_scroll_method with
        | some m => [ProviderCall.scroll_set_method m]
        | none => [])
    ++ [ProviderCall.dwt_set_enabled (option_int_truthy config.touchpad_dwt_enabled),
        ProviderCall.send_events_set_mode
          (if option_int_truthy config.touchpad_dwmouse_enabled then
             SendEventsMode.disabledOnExternalMouse
           else SendEventsMode.enabled)]
    ++ (if caps.has_natural_scroll > 0 then
          [ProviderCall.natural_scroll_set
            (option_int_truthy config.touchpad_natural_scroll_enabled)]
        else [])
  else
    [ProviderCall.accel_set_speed config.mouse_cursor_speed]

/-- Click-method setter calls contained in a provider call list. -/
def click_calls (l : List ProviderCall) : List ClickMethod :=
  l.filterMap fun c =>
    match c with
    | ProviderCall.click_set_method m => some m
    | _ => none

/-- Scroll-method setter calls contained in a provider call list. -/
def scroll_calls (l : List ProviderCall) : List ScrollMethod :=
  l.filterMap fun c =>
    match c with
    | ProviderCall.scroll_set_method m => some m
    | _ => none

/-- C1: a start-drag request whose serial validates against neither the
pointer grab serial nor the touch grab serial starts no drag, creates no
DragOperation (the drag slot is untouched, so an empty slot stays empty),
destroys the request's data source, emits no signal, and surfaces no error
(the rejection is only logged). -/
theorem C1_invalid_serial_rejected (seat : SeatState) (st : InputManagerState)
    (serial icon : Nat)
    (hp : seat.validate_pointer_grab_serial serial = false)
    (ht : seat.validate_touch_grab_serial serial = none) :
    request_start_drag_step seat st serial icon = (st, [], true) ∧
    (st.drag_icon = none →
      (request_start_drag_step seat st serial icon).1.drag_icon = none) ∧
    handle_request_start_drag_cb seat serial =
      { started_pointer_drag := false, started_touch_drag := none,
        source_destroyed := true, logged := true } := by
  simp [request_start_drag_step, handle_request_start_drag_cb, hp, ht]

/-- Witness for C1 at a seat whose validators reject everything. -/
theorem C1_invalid_serial_rejected_witness :
    request_start_drag_step ⟨fun _ => false, fun _ => none⟩ ⟨none⟩ 7 0 =
      (⟨none⟩, [], true) :=
  (C1_invalid_serial_rejected ⟨fun _ => false, fun _ => none⟩ ⟨none⟩ 7 0
    rfl rfl).1

/-- C2: a granted drag start followed by the icon's destroy notification
publishes exactly one `drag-started` then exactly one `drag-stopped`, both
with null payload; afterwards the drag slot is empty; and every icon
destroy notification unconditionally clears the slot and publishes
`drag-stopped`. -/
theorem C2_drag_lifecycle_signals (st : InputManagerState) (icon : Nat) :
    (handle_start_drag_cb st icon).2 ++
        (handle_drag_icon_destroy (handle_start_drag_cb st icon).1).2 =
      [("drag-started", SignalPayload.null),
       ("drag-stopped", SignalPayload.null)] ∧
    (handle_drag_icon_destroy (handle_start_drag_cb st icon).1).1.drag_icon
      = none ∧
    (∀ st' : InputManagerState, handle_drag_icon_destroy st' =
      ({ drag_icon := none }, [("drag-stopped", SignalPayload.null)])) := by
  simp [handle_start_drag_cb, handle_drag_icon_destroy]

/-- C10: the `start_drag` grant handler overwrites the global drag slot
with a newly constructed wrapper for the granted icon regardless of the
prior slot contents — its result does not depend on the prior state at
all, so an occupied slot is replaced, never rejected. -/
theorem C10_slot_overwritten (st st' : InputManagerState) (icon : Nat) :
    (handle_start_drag_cb st icon).1.drag_icon = some { icon := icon } ∧
    handle_start_drag_cb st icon = handle_start_drag_cb st' icon := by
  simp [handle_start_drag_cb]

/-- C3 counterexample: on a non-libinput device, `set_enabled true`
returns true — not false as the claim states — because the early
already-matching-state check (`enabled == is_enabled()`) fires before the
libinput support check. -/
theorem C3_counterexample :
    is_enabled { libinput := none } = true ∧
    (set_enabled { libinput := none } true).1 = true ∧
    ¬ (set_enabled { libinput := none } true).1 = false := by
  decide

/-- C3 amended: for every device without enable/disable support,
`is_enabled` always returns true (also after any `set_enabled` call, which
never changes the state and never calls the provider), and `set_enabled b`
returns `b`: false when asked to disable, but true (an early
success-no-op) when asked to enable, since the device already reports
enabled. -/
theorem C3_amended_unsupported_device (d : InputDeviceState)
    (h : d.libinput = none) (b : Bool) :
    is_enabled d = true ∧
    (set_enabled d b).1 = b ∧
    (set_enabled d b).2.1 = d ∧
    (set_enabled d b).2.2 = [] ∧
    is_enabled (set_enabled d b).2.1 = true := by
  cases d
  cases h
  cases b <;> simp [is_enabled, set_enabled]

/-- Witness for C3's amended statement on a concrete non-libinput
device asked to disable. -/
theorem C3_amended_unsupported_device_witness :
    (set_enabled { libinput := none } false).1 = false :=
  (C3_amended_unsupported_device { libinput := none } rfl false).2.1

/-- C4 counterexample: for a switch kind that is neither tablet-mode (2)
nor lid (1), the toggle handler still publishes a signal — with the empty
event name — because `emit_signal` is called unconditionally after the
kind switch, which has no default case. The claim that no signal is
published for other kinds is therefore false. -/
theorem C4_counterexample :
    (5 : Nat) ≠ WLR_SWITCH_TYPE_TABLET_MODE ∧
    (5 : Nat) ≠ WLR_SWITCH_TYPE_LID ∧
    handle_switched 0 5 1 ≠ ([] : List Signal) ∧
    handle_switched 0 5 1 = [("", SignalPayload.switchData 0 true)] := by
  decide

/-- C4 amended: a tablet-mode toggle publishes `"tablet-mode"` and a lid
toggle publishes `"lid-state"`, each carrying the device reference and the
on/off state; any other switch kind still publishes exactly one signal,
carrying the same payload but the empty event name. -/
theorem C4_amended_switch_translation (device st other : Nat) :
    handle_switched device WLR_SWITCH_TYPE_TABLET_MODE st =
      [("tablet-mode",
        SignalPayload.switchData device (st = WLR_SWITCH_STATE_ON))] ∧
    handle_switched device WLR_SWITCH_TYPE_LID st =
      [("lid-state",
        SignalPayload.switchData device (st = WLR_SWITCH_STATE_ON))] ∧
    (other = WLR_SWITCH_TYPE_TABLET_MODE ∨ other = WLR_SWITCH_TYPE_LID ∨
      handle_switched device other st =
        [("", SignalPayload.switchData device (st = WLR_SWITCH_STATE_ON))]) ∧
    (handle_switched device other st).length = 1 := by
  refine ⟨?_, ?_, ?_, ?_⟩
  · simp [handle_switched, WLR_SWITCH_TYPE_TABLET_MODE, WLR_SWITCH_TYPE_LID]
  · simp [handle_switched, WLR_SWITCH_TYPE_TABLET_MODE, WLR_SWITCH_TYPE_LID]
  · by_cases h2 : other = WLR_SWITCH_TYPE_TABLET_MODE
    · exact Or.inl h2
    · by_cases h1 : other = WLR_SWITCH_TYPE_LID
      · exact Or.inr (Or.inl h1)
      · exact Or.inr (Or.inr (by simp [handle_switched, h1, h2]))
  · simp [handle_switched]

/-- C8: for a device supporting enable/disable (a libinput device),
`set_enabled` with the current state returns true, leaves the state
unchanged and performs no provider mode-set call; moreover the provider is
called exactly when the requested state differs from the current one. -/
theorem C8_set_enabled_idempotent (d : InputDeviceState) (m : SendEventsMode)
    (h : d.libinput = some m) :
    set_enabled d (is_enabled d) = (true, d, []) ∧
    (∀ b : Bool, (set_enabled d b).2.2 = [] ↔ b = is_enabled d) := by
  constructor
  · simp [set_enabled]
  · intro b
    by_cases hb : b = is_enabled d <;> simp [set_enabled, hb, h]

/-- Witness for C8 on a concrete libinput device currently enabled. -/
theorem C8_set_enabled_idempotent_witness :
    set_enabled { libinput := some SendEventsMode.enabled }
        (is_enabled { libinput := some SendEventsMode.enabled }) =
      (true, { libinput := some SendEventsMode.enabled }, []) :=
  (C8_set_enabled_idempotent { libinput := some SendEventsMode.enabled }
    SendEventsMode.enabled rfl).1

/-- C5: on a touchpad (libinput device with positive tap finger count),
`update_options` performs exactly the click-method setter call that the
resolution chain produces and exactly the scroll-method setter call that
its chain produces; `"default"` resolves to the provider's own default
method, the literal method names resolve to the corresponding explicit
methods, and any unrecognized string resolves to no setter call at all
(method left unchanged). -/
theorem C5_method_resolution (config : config_t) (caps : DeviceCaps)
    (hl : caps.is_libinput = true) (ht : caps.tap_finger_count > 0) :
    click_calls (update_options config caps) =
      (click_method_for config.touchpad_click_method
        caps.default_click_method).toList ∧
    scroll_calls (update_options config caps) =
      (scroll_method_for config.touchpad_scroll_method
        caps.default_scroll_method).toList ∧
    click_method_for "default" caps.default_click_method =
      some caps.default_click_method ∧
    click_method_for "none" caps.default_click_method =
      some ClickMethod.none_ ∧
    click_method_for "button-areas" caps.default_click_method =
      some ClickMethod.button_areas ∧
    click_method_for "clickfinger" caps.default_click_method =
      some ClickMethod.clickfinger ∧
    (∀ s : String,
      s ∉ (["default", "none", "button-areas", "clickfinger"] : List String) →
      click_method_for s caps.default_click_method = none) ∧
    scroll_method_for "default" caps.default_scroll_method =
      some caps.default_scroll_method ∧
    scroll_method_for "none" caps.default_scroll_method =
      some ScrollMethod.no_scroll ∧
    scroll_method_for "two-finger" caps.default_scroll_method =
      some ScrollMethod.two_fg ∧
    scroll_method_for "edge" caps.default_scroll_method =
      some ScrollMethod.edge ∧
    scroll_method_for "on-button-down" caps.default_scroll_method =
      some ScrollMethod.on_button_down ∧
    (∀ s : String,
      s ∉ (["default", "none", "two-finger", "edge",
            "on-button-down"] : List String) →
      scroll_method_for s caps.default_scroll_method = none) := by
  refine ⟨?_, ?_, rfl, rfl, rfl, rfl, ?_, rfl, rfl, rfl, rfl, rfl, ?_⟩
  · cases hc : click_method_for config.touchpad_click_method
        caps.default_click_method <;>
    cases hs : scroll_method_for config.touchpad_scroll_method
        caps.default_scroll_method <;>
    by_cases hn : caps.has_natural_scroll > 0 <;>
      simp [update_options, click_calls, hl, ht, hc, hs, hn]
  · cases hc : click_method_for config.touchpad_click_method
        caps.default_click_method <;>
    cases hs : scroll_method_for config.touchpad_scroll_method
        caps.default_scroll_method <;>
    by_cases hn : caps.has_natural_scroll > 0 <;>
      simp [update_options, scroll_calls, hl, ht, hc, hs, hn]
  · intro s h
    simp only [List.mem_cons, List.not_mem_nil, or_false, not_or] at h
    obtain ⟨h1, h2, h3, h4⟩ := h
    simp [click_method_for, h1, h2, h3, h4]
  · intro s h
    simp only [List.mem_cons, List.not_mem_nil, or_false, not_or] at h
    obtain ⟨h1, h2, h3, h4, h5⟩ := h
    simp [scroll_method_for, h1, h2, h3, h4, h5]

/-- Witness for C5 on a concrete touchpad whose provider default click
method is clickfinger and whose configured strings are the defaults. -/
theorem C5_method_resolution_witness :
    click_calls (update_options
      { mouse_cursor_speed := "0", touchpad_cursor_speed := "0",
        touchpad_tap_enabled := "1", touchpad_click_method := "default",
        touchpad_scroll_method := "default", touchpad_dwt_enabled := "0",
        touchpad_dwmouse_enabled := "0",
        touchpad_natural_scroll_enabled := "0" }
      { is_libinput := true, tap_finger_count := 2, has_natural_scroll := 1,
        default_click_method := ClickMethod.clickfinger,
        default_scroll_method := ScrollMethod.two_fg }) =
      (click_method_for "default" ClickMethod.clickfinger).toList :=
  (C5_method_resolution
    { mouse_cursor_speed := "0", touchpad_cursor_speed := "0",
      touchpad_tap_enabled := "1", touchpad_click_method := "default",
      touchpad_scroll_method := "default", touchpad_dwt_enabled := "0",
      touchpad_dwmouse_enabled := "0",
      touchpad_natural_scroll_enabled := "0" }
    { is_libinput := true, tap_finger_count := 2, has_natural_scroll := 1,
      default_click_method := ClickMethod.clickfinger,
      default_scroll_method := ScrollMethod.two_fg }
    rfl (by decide)).1

/-- C6: drag-icon damage is a no-op when unmapped; when mapped, exactly
the outputs whose layout geometry intersects the global box receive a
damage submission, each with the box translated into that output's local
space by subtracting the output's origin, and a pair belongs to the
submission list exactly when it arises this way from some intersecting
output. -/
theorem C6_damage (outputs : List Output) (box : Box) :
    wf_drag_icon_damage outputs false box = [] ∧
    wf_drag_icon_damage outputs true box =
      (outputs.filter fun o => rectIntersects o.layout_geometry box).map
        (fun o => (o.id, { box with x := box.x - o.layout_geometry.x,
                                    y := box.y - o.layout_geometry.y })) ∧
    (∀ p : Nat × Box, p ∈ wf_drag_icon_damage outputs true box ↔
      ∃ o, o ∈ outputs ∧ rectIntersects o.layout_geometry box = true ∧
        p = (o.id, { box with x := box.x - o.layout_geometry.x,
                              y := box.y - o.layout_geometry.y })) := by
  have hmap : wf_drag_icon_damage outputs true box =
      (outputs.filter fun o => rectIntersects o.layout_geometry box).map
        (fun o => (o.id, { box with x := box.x - o.layout_geometry.x,
                                    y := box.y - o.layout_geometry.y })) := by
    induction outputs with
    | nil => simp [wf_drag_icon_damage]
    | cons o os ih =>
      by_cases h : rectIntersects o.layout_geometry box <;>
        simp [wf_drag_icon_damage, List.filterMap_cons, List.filter_cons,
          h] at ih ⊢ <;>
        exact ih
  refine ⟨by simp [wf_drag_icon_damage], hmap, fun p => ?_⟩
  rw [hmap]
  simp only [List.mem_map, List.mem_filter]
  constructor
  · rintro ⟨o, ⟨ho, hi⟩, rfl⟩
    exact ⟨o, ho, hi, rfl⟩
  · rintro ⟨o, ho, hi, rfl⟩
    exact ⟨o, ⟨ho, hi⟩, rfl⟩

/-- Witness for C6: the spec's concrete scenario — global box origin
(155, 45) (anchor (150, 40) plus icon offset (5, 5)), an output of
geometry 800 by 600 at origin (100, 0) and another at origin (800, 0) —
yields no damage when unmapped and, when mapped, exactly one submission to
the first output with local origin (55, 45). -/
theorem C6_damage_witness :
    wf_drag_icon_damage
        [⟨0, ⟨100, 0, 800, 600⟩⟩, ⟨1, ⟨800, 0, 800, 600⟩⟩] false
        ⟨155, 45, 64, 64⟩ = [] ∧
    wf_drag_icon_damage
        [⟨0, ⟨100, 0, 800, 600⟩⟩, ⟨1, ⟨800, 0, 800, 600⟩⟩] true
        ⟨155, 45, 64, 64⟩ = [(0, ⟨55, 45, 64, 64⟩)] :=
  ⟨(C6_damage [⟨0, ⟨100, 0, 800, 600⟩⟩, ⟨1, ⟨800, 0, 800, 600⟩⟩]
      ⟨155, 45, 64, 64⟩).1,
   ((C6_damage [⟨0, ⟨100, 0, 800, 600⟩⟩, ⟨1, ⟨800, 0, 800, 600⟩⟩]
      ⟨155, 45, 64, 64⟩).2.1).trans (by decide)⟩

/-- C7: `get_output_position` computes, from the live core positions on
every call, the anchor (touch position of the drag's touch id for a
touch-based grab, pointer position otherwise) plus the icon surface offset
when mapped, minus the assigned output's layout origin when present. -/
theorem C7_get_output_position (core : CoreState) (icon : DragIconState) :
    get_output_position core icon =
      { x := (if icon.grab_type = GrabType.keyboard_touch then
                core.touch_position icon.touch_id
              else core.cursor_position).x
             + (if icon.mapped then icon.surface_sx else 0)
             - (match icon.output with | some og => og.x | none => 0),
        y := (if icon.grab_type = GrabType.keyboard_touch then
                core.touch_position icon.touch_id
              else core.cursor_position).y
             + (if icon.mapped then icon.surface_sy else 0)
             - (match icon.output with | some og => og.y | none => 0) } := by
  rcases icon with ⟨g, tid, m, sx, sy, out⟩
  cases out <;> cases m <;>
    by_cases hg : g = GrabType.keyboard_touch <;>
      simp [get_output_position, hg]

/-- C9: configuration load depends only on the `"input"` section of the
source; on an empty source it yields the documented defaults (speeds 0,
tap-to-click enabled, both methods `"default"`, the three remaining
booleans disabled); and on any source each of the eight fields is read
from its named option with its default used when absent. -/
theorem C9_config_load (s₁ s₂ : String → String → Option String)
    (h : s₁ "input" = s₂ "input") :
    config_load s₁ = config_load s₂ ∧
    config_load (fun _ _ => none) =
      { mouse_cursor_speed := "0", touchpad_cursor_speed := "0",
        touchpad_tap_enabled := "1", touchpad_click_method := "default",
        touchpad_scroll_method := "default", touchpad_dwt_enabled := "0",
        touchpad_dwmouse_enabled := "0",
        touchpad_natural_scroll_enabled := "0" } ∧
    (∀ s : String → String → Option String,
      config_load s =
        { mouse_cursor_speed := (s "input" "mouse_cursor_speed").getD "0",
          touchpad_cursor_speed :=
            (s "input" "touchpad_cursor_speed").getD "0",
          touchpad_tap_enabled := (s "input" "tap_to_click").getD "1",
          touchpad_click_method := (s "input" "click_method").getD "default",
          touchpad_scroll_method :=
            (s "input" "scroll_method").getD "default",
          touchpad_dwt_enabled :=
            (s "input" "disable_while_typing").getD "0",
          touchpad_dwmouse_enabled :=
            (s "input" "disable_touchpad_while_mouse").getD "0",
          touchpad_natural_scroll_enabled :=
            (s "input" "natural_scroll").getD "0" }) := by
  refine ⟨?_, rfl, fun s => rfl⟩
  simp [config_load, h]

/-- Witness for C9: loading from the empty source yields the defaults. -/
theorem C9_config_load_witness :
    config_load (fun _ _ => none) =
      { mouse_cursor_speed := "0", touchpad_cursor_speed := "0",
        touchpad_tap_enabled := "1", touchpad_click_method := "default",
        touchpad_scroll_method := "default", touchpad_dwt_enabled := "0",
        touchpad_dwmouse_enabled := "0",
        touchpad_natural_scroll_enabled := "0" } :=
  (C9_config_load (fun _ _ => none) (fun _ _ => none) rfl).2.1

end Seat
